import Mathlib

/-!
# Batsim: external decision component loading and the JSON protocol

A shallow embedding of `src/edc.cpp` (the `ExternalLibrary` loader) and of the
`JsonProtocolWriter` / `JsonProtocolReader` classes declared in
`src/protocol.hpp`, with the properties of the specification stated over it.

Conventions of the embedding:

* a C pointer (`void *`, a function pointer) is a `Nat`, and `NULL` is `0`;
* `xbt_assert(cond, ...)` aborts the run when `cond` is false (assertions are
  taken as compiled in): the embedded function returns `Except.error` and
  nothing after the assertion is executed;
* the dynamic linker (`dlmopen`, `dlopen`, `dlsym`) and the code behind the
  resolved entry points are not part of the repository: they are the fields of
  an environment record, and every call made to them is recorded, in program
  order, in a trace;
* a `double` date is a rational number (only the ordering of dates is used, and
  no date is a NaN).
-/

namespace Batsim

/-- Equality of results of fallible functions is decidable, so that runs on
concrete inputs can be evaluated. -/
instance decEqExcept {ε α : Type} [DecidableEq ε] [DecidableEq α] :
    DecidableEq (Except ε α)
  | .ok a, .ok b =>
    if h : a = b then isTrue (by rw [h]) else isFalse (fun h2 => h (Except.ok.inj h2))
  | .error a, .error b =>
    if h : a = b then isTrue (by rw [h]) else isFalse (fun h2 => h (Except.error.inj h2))
  | .ok _, .error _ => isFalse (fun h => by cases h)
  | .error _, .ok _ => isFalse (fun h => by cases h)

/-! ## `edc.cpp`: the plugin loader -/

/-- The way the library of an external decision component is loaded
(`EdcLibraryLoadMethod`, the `switch` of the constructor has these two cases). -/
inductive EdcLibraryLoadMethod where
  | DLMOPEN
  | DLOPEN
  deriving DecidableEq, Repr

/-- The value of `RTLD_NOW` in `<dlfcn.h>` (glibc). -/
def RTLD_NOW : Nat := 2

/-- The value of `RTLD_LOCAL` in `<dlfcn.h>` (glibc). -/
def RTLD_LOCAL : Nat := 0

/-- The value of `RTLD_DEEPBIND` in `<dlfcn.h>` (glibc). -/
def RTLD_DEEPBIND : Nat := 8

/-- The value of `LM_ID_NEWLM` in `<dlfcn.h>` (glibc): a fresh link-map namespace. -/
def LM_ID_NEWLM : Int := -1

/-- The value of `RTLD_LAZY` in `<dlfcn.h>` (glibc): lazy binding, the
alternative to `RTLD_NOW`. -/
def RTLD_LAZY : Nat := 1

/-- The value of `RTLD_GLOBAL` in `<dlfcn.h>` (glibc): global visibility, the
alternative to `RTLD_LOCAL`. -/
def RTLD_GLOBAL : Nat := 256

/-- The flag word both open calls of the constructor pass:
`RTLD_NOW | RTLD_LOCAL | RTLD_DEEPBIND`. -/
def open_flags : Nat := RTLD_NOW ||| RTLD_LOCAL ||| RTLD_DEEPBIND

/-- The dynamic linker and the loaded code, as seen by `edc.cpp`.
`dlmopen`, `dlopen` and `dlsym` return a pointer (`0` is `NULL`);
`entry_status` is the `uint8_t` returned by calling the function at an address. -/
structure DynamicLinker where
  dlmopen : Int → String → Nat → Nat
  dlopen : String → Nat → Nat
  dlsym : Nat → String → Nat
  entry_status : Nat → Nat

/-- One call leaving `edc.cpp`, recorded in program order. -/
inductive Call where
  | dlmopen (lmid : Int) (path : String) (flags : Nat)
  | dlopen (path : String) (flags : Nat)
  | dlsym (lib_handle : Nat) (symbol : String)
  | invoke (address : Nat)
  | dlclose (lib_handle : Nat)
  deriving DecidableEq, Repr

/-- The two fatal outcomes of loading. `NotFound` is the failure of the assertion
`lib_handle != NULL` ("dlmopen failed while loading external decision component
library"), `SymbolMissing symbol` the failure of the assertion `address != NULL`
of `load_lib_symbol` ("Could not load symbol"). -/
inductive LoadError where
  | NotFound
  | SymbolMissing (symbol : String)
  deriving DecidableEq, Repr

/-- The members of `ExternalLibrary` the constructor assigns: the library handle
and the three function pointers. -/
structure ExternalLibrary where
  lib_handle : Nat
  init : Nat
  deinit : Nat
  take_decisions : Nat
  deriving DecidableEq, Repr

/-- The calls made before an embedded function returned or aborted, and its
result. -/
structure Outcome (α : Type) where
  trace : List Call
  result : Except LoadError α

/-- Whether a recorded call is an open call (`dlmopen` or `dlopen`). -/
def Call.is_open : Call → Bool
  | .dlmopen _ _ _ => true
  | .dlopen _ _ => true
  | _ => false

/-- Whether a recorded call is a symbol lookup. -/
def Call.is_dlsym : Call → Bool
  | .dlsym _ _ => true
  | _ => false

/-- Whether a recorded call runs code of the library through a function pointer. -/
def Call.is_invoke : Call → Bool
  | .invoke _ => true
  | _ => false

/-- Whether a recorded call unloads a library. -/
def Call.is_dlclose : Call → Bool
  | .dlclose _ => true
  | _ => false

/-- The function `load_lib_symbol(lib_handle, symbol)`: one `dlsym`, then the
assertion that the address is not `NULL`; the address is returned. -/
def load_lib_symbol (ld : DynamicLinker) (lib_handle : Nat) (symbol : String) :
    Outcome Nat :=
  let address := ld.dlsym lib_handle symbol
  { trace := [Call.dlsym lib_handle symbol]
    result := if address ≠ 0 then .ok address else .error (.SymbolMissing symbol) }

/-- The open call selected by the `switch (load_method)` of the constructor. -/
def open_call (lib_path : String) : EdcLibraryLoadMethod → Call
  | .DLMOPEN => Call.dlmopen LM_ID_NEWLM lib_path open_flags
  | .DLOPEN => Call.dlopen lib_path open_flags

/-- The value assigned to `lib_handle` by the `switch (load_method)`. -/
def open_library (ld : DynamicLinker) (lib_path : String) : EdcLibraryLoadMethod → Nat
  | .DLMOPEN => ld.dlmopen LM_ID_NEWLM lib_path open_flags
  | .DLOPEN => ld.dlopen lib_path open_flags

/-- The constructor `ExternalLibrary::ExternalLibrary(lib_path, load_method)`:
the open call, the assertion on the handle, then the three `load_lib_symbol`
calls in source order, each aborting the construction when it fails. -/
def ExternalLibrary.construct (ld : DynamicLinker) (lib_path : String)
    (load_method : EdcLibraryLoadMethod) : Outcome ExternalLibrary :=
  let lib_handle := open_library ld lib_path load_method
  let t0 := [open_call lib_path load_method]
  if lib_handle = 0 then
    { trace := t0, result := .error .NotFound }
  else
    let r1 := load_lib_symbol ld lib_handle "batsim_edc_init"
    match r1.result with
    | .error e => { trace := t0 ++ r1.trace, result := .error e }
    | .ok init =>
      let r2 := load_lib_symbol ld lib_handle "batsim_edc_deinit"
      match r2.result with
      | .error e => { trace := t0 ++ r1.trace ++ r2.trace, result := .error e }
      | .ok deinit =>
        let r3 := load_lib_symbol ld lib_handle "batsim_edc_take_decisions"
        match r3.result with
        | .error e => { trace := t0 ++ r1.trace ++ r2.trace ++ r3.trace, result := .error e }
        | .ok take_decisions =>
          { trace := t0 ++ r1.trace ++ r2.trace ++ r3.trace
            result := .ok { lib_handle := lib_handle, init := init, deinit := deinit
                            take_decisions := take_decisions } }

/-- The destructor `ExternalLibrary::~ExternalLibrary()`: `deinit()` (its status
is discarded), then `dlclose(lib_handle)`. -/
def ExternalLibrary.destruct (ld : DynamicLinker) (lib : ExternalLibrary) : List Call :=
  let _status := ld.entry_status lib.deinit
  [Call.invoke lib.deinit, Call.dlclose lib.lib_handle]

/-- A call the owner of an `ExternalLibrary` makes through one of the function
pointers the constructor leaves for it (`edc.cpp` itself only ever calls
`deinit`, in the destructor). The callers are not among the sources: what they
do between construction and destruction is a parameter of `lifetime`. -/
inductive OwnerCall where
  | init
  | take_decisions
  deriving DecidableEq, Repr

/-- The recorded call of an owner call on a constructed library. -/
def ExternalLibrary.owner_call (lib : ExternalLibrary) : OwnerCall → Call
  | .init => Call.invoke lib.init
  | .take_decisions => Call.invoke lib.take_decisions

/-- The calls of a whole lifetime: the constructor, then, when it succeeded, the
calls `uses` of the owner and the destructor. A failed construction leaves no
object, so that nothing follows it. -/
def lifetime (ld : DynamicLinker) (lib_path : String) (load_method : EdcLibraryLoadMethod)
    (uses : List OwnerCall) : List Call :=
  let built := ExternalLibrary.construct ld lib_path load_method
  match built.result with
  | .ok lib => built.trace ++ uses.map lib.owner_call ++ ExternalLibrary.destruct ld lib
  | .error _ => built.trace

/-- The three symbols the constructor resolves, in source order. -/
def required_symbols : List String :=
  ["batsim_edc_init", "batsim_edc_deinit", "batsim_edc_take_decisions"]

/-- A linker in which only the library at `/lib/sched.so` opens (handle `7`) and
exports the symbols listed in `exported`, at addresses `100 + position`. -/
def sample_linker (exported : List String) : DynamicLinker where
  dlmopen := fun _ path _ => if path = "/lib/sched.so" then 7 else 0
  dlopen := fun path _ => if path = "/lib/sched.so" then 7 else 0
  dlsym := fun h s => if h = 7 ∧ s ∈ exported then 100 + exported.indexOf s else 0
  entry_status := fun _ => 0

/-! ## `protocol.hpp`: the data of the protocol

`protocol.hpp` declares the writer and the reader; the bodies of their member
functions (`protocol.cpp`) and the headers `machine_range.hpp` and `ipp.hpp`
are not among the sources. What the header fixes is embedded from it (member
names, default member initialisers, the two lists of accepted strings, the
inline `is_empty`, the handlers the reader has); the bodies are modelled from
the specification, and each such definition says so. -/

/-- A date of the simulation (`double` in the source). -/
abbrev Date := ℚ

/-- Modelled from the spec: the type `MachineRange` of `machine_range.hpp`, a set
of resource identifiers whose equality is set equality. -/
abbrev MachineRange := Finset Nat

/-- Modelled from the spec: the payload (`data` object) of an event, one shape
per family of event kinds, with the fields the `append_*` member functions of
`protocol.hpp` take. -/
inductive EventData where
  | empty
  | submit_job (job_id job_description profile_description : String)
      (acknowledge_submission : Bool)
  | execute_job (job_id : String) (allocated_resources : MachineRange)
      (executor_to_allocated_resource_mapping : String)
  | reject_job (job_id : String)
  | kill_job (job_ids : List String)
  | set_resource_state (resources : MachineRange) (new_state : String)
  | call_me_later (future_date : Date)
  | query_request (requests : List String)
  | notify (what : String)
  | job_submitted (job_ids : List String)
  | job_completed (job_id job_status : String)
  | job_killed (job_ids : List String)
  | resource_state_changed (resources : MachineRange) (new_state : String)
  | query_reply_energy (consumed_energy : ℚ)
  deriving DecidableEq

/-- Modelled from the spec: an event of the wire grammar
`{ timestamp, type, payload }`. -/
structure Event where
  timestamp : Date
  type : String
  data : EventData
  deriving DecidableEq

/-- Modelled from the spec: a message of the wire grammar
`{ timestamp, events: [...] }`. The text of the message is represented by the
document it denotes. -/
structure Message where
  now : Date
  events : List Event
  deriving DecidableEq

/-- Modelled from the spec: the fatal conditions of the error taxonomy that the
writer and the reader can raise. `NonMonotonicTimestamp`, `MalformedEvent` and
`UnknownEventType` are protocol violations, the others validation errors. -/
inductive ProtocolError where
  | NonMonotonicTimestamp
  | MalformedEvent (event_number : Nat)
  | UnknownEventType (event_number : Nat) (type : String)
  | DisallowedCompletionStatus (job_status : String)
  | DisallowedQueryRequest (event_number : Nat) (request : String)
  | InvalidFutureDate (event_number : Nat)
  | InvalidJob (event_number : Nat) (job_id : String)
  | InvalidResources (event_number : Nat)
  | InvalidMapping (event_number : Nat)
  deriving DecidableEq

/-! ## `protocol.hpp`: `JsonProtocolWriter` -/

/-- The data members of `JsonProtocolWriter` with their default member
initialisers: `_is_empty = true`, `_last_date = -1`, `_events` an empty array. -/
structure JsonProtocolWriter where
  _is_empty : Bool := true
  _last_date : Date := -1
  _events : List Event := []
  deriving DecidableEq

namespace JsonProtocolWriter

/-- The member `accepted_completion_statuses = {"SUCCESS", "TIMEOUT"}`. -/
def accepted_completion_statuses : List String := ["SUCCESS", "TIMEOUT"]

/-- The constructor `JsonProtocolWriter()`: every member has its default
initialiser. -/
def create : JsonProtocolWriter := {}

/-- The inline member function `bool is_empty() { return _is_empty; }`. -/
def is_empty (w : JsonProtocolWriter) : Bool := w._is_empty

/-- Modelled from the spec: the part common to the bodies of all `append_*`
(bodies missing from the sources). The date must be greater than or equal to
the date of the previous event, kept in `_last_date`; otherwise the append is
fatal. An accepted event is pushed at the end of `_events`, `_last_date`
becomes its date and the writer is no longer empty. -/
def append_event (w : JsonProtocolWriter) (date : Date) (type : String) (data : EventData) :
    Except ProtocolError JsonProtocolWriter :=
  if w._last_date ≤ date then
    .ok { _is_empty := false
          _last_date := date
          _events := w._events ++ [{ timestamp := date, type := type, data := data }] }
  else
    .error .NonMonotonicTimestamp

/-- Modelled from the spec: body of `append_nop` (missing from the sources). -/
def append_nop (w : JsonProtocolWriter) (date : Date) :
    Except ProtocolError JsonProtocolWriter :=
  w.append_event date "NOP" .empty

/-- Modelled from the spec: body of `append_submit_job` (missing from the
sources). -/
def append_submit_job (w : JsonProtocolWriter) (job_id : String) (date : Date)
    (job_description : String) (profile_description : String)
    (acknowledge_submission : Bool) : Except ProtocolError JsonProtocolWriter :=
  w.append_event date "SUBMIT_JOB"
    (.submit_job job_id job_description profile_description acknowledge_submission)

/-- Modelled from the spec: body of `append_execute_job` (missing from the
sources). -/
def append_execute_job (w : JsonProtocolWriter) (job_id : String)
    (allocated_resources : MachineRange) (date : Date)
    (executor_to_allocated_resource_mapping : String) :
    Except ProtocolError JsonProtocolWriter :=
  w.append_event date "EXECUTE_JOB"
    (.execute_job job_id allocated_resources executor_to_allocated_resource_mapping)

/-- Modelled from the spec: body of `append_reject_job` (missing from the
sources). -/
def append_reject_job (w : JsonProtocolWriter) (job_id : String) (date : Date) :
    Except ProtocolError JsonProtocolWriter :=
  w.append_event date "REJECT_JOB" (.reject_job job_id)

/-- Modelled from the spec: body of `append_kill_job` (missing from the
sources). -/
def append_kill_job (w : JsonProtocolWriter) (job_ids : List String) (date : Date) :
    Except ProtocolError JsonProtocolWriter :=
  w.append_event date "KILL_JOB" (.kill_job job_ids)

/-- Modelled from the spec: body of `append_set_resource_state` (missing from
the sources). -/
def append_set_resource_state (w : JsonProtocolWriter) (resources : MachineRange)
    (new_state : String) (date : Date) : Except ProtocolError JsonProtocolWriter :=
  w.append_event date "SET_RESOURCE_STATE" (.set_resource_state resources new_state)

/-- Modelled from the spec: body of `append_call_me_later` (missing from the
sources). -/
def append_call_me_later (w : JsonProtocolWriter) (future_date : Date) (date : Date) :
    Except ProtocolError JsonProtocolWriter :=
  w.append_event date "CALL_ME_LATER" (.call_me_later future_date)

/-- Modelled from the spec: body of `append_submitter_may_submit_jobs` (missing
from the sources). -/
def append_submitter_may_submit_jobs (w : JsonProtocolWriter) (date : Date) :
    Except ProtocolError JsonProtocolWriter :=
  w.append_event date "SUBMITTER_MAY_SUBMIT_JOBS" .empty

/-- Modelled from the spec: body of `append_scheduler_finished_submitting_jobs`
(missing from the sources). -/
def append_scheduler_finished_submitting_jobs (w : JsonProtocolWriter) (date : Date) :
    Except ProtocolError JsonProtocolWriter :=
  w.append_event date "SCHEDULER_FINISHED_SUBMITTING_JOBS" .empty

/-- Modelled from the spec: body of `append_query_request` (missing from the
sources). The header declares the argument as `void * anything` and gives it no
type; it is taken here to be the list of requested kinds, the content the spec
gives to a `QUERY_REQUEST`. -/
def append_query_request (w : JsonProtocolWriter) (anything : List String) (date : Date) :
    Except ProtocolError JsonProtocolWriter :=
  w.append_event date "QUERY_REQUEST" (.query_request anything)

/-- Modelled from the spec: body of `append_simulation_begins` (missing from the
sources). -/
def append_simulation_begins (w : JsonProtocolWriter) (date : Date) :
    Except ProtocolError JsonProtocolWriter :=
  w.append_event date "SIMULATION_BEGINS" .empty

/-- Modelled from the spec: body of `append_simulation_ends` (missing from the
sources). -/
def append_simulation_ends (w : JsonProtocolWriter) (date : Date) :
    Except ProtocolError JsonProtocolWriter :=
  w.append_event date "SIMULATION_ENDS" .empty

/-- Modelled from the spec: body of `append_job_submitted` (missing from the
sources). -/
def append_job_submitted (w : JsonProtocolWriter) (job_ids : List String) (date : Date) :
    Except ProtocolError JsonProtocolWriter :=
  w.append_event date "JOB_SUBMITTED" (.job_submitted job_ids)

/-- Modelled from the spec: body of `append_job_completed` (missing from the
sources). Besides the rule on the date, the status must be one of
`accepted_completion_statuses`; any other value is rejected at append time. -/
def append_job_completed (w : JsonProtocolWriter) (job_id : String) (job_status : String)
    (date : Date) : Except ProtocolError JsonProtocolWriter :=
  if w._last_date ≤ date then
    if job_status ∈ accepted_completion_statuses then
      w.append_event date "JOB_COMPLETED" (.job_completed job_id job_status)
    else
      .error (.DisallowedCompletionStatus job_status)
  else
    .error .NonMonotonicTimestamp

/-- Modelled from the spec: body of `append_job_killed` (missing from the
sources). -/
def append_job_killed (w : JsonProtocolWriter) (job_ids : List String) (date : Date) :
    Except ProtocolError JsonProtocolWriter :=
  w.append_event date "JOB_KILLED" (.job_killed job_ids)

/-- Modelled from the spec: body of `append_resource_state_changed` (missing from
the sources). -/
def append_resource_state_changed (w : JsonProtocolWriter) (resources : MachineRange)
    (new_state : String) (date : Date) : Except ProtocolError JsonProtocolWriter :=
  w.append_event date "RESOURCE_STATE_CHANGED" (.resource_state_changed resources new_state)

/-- Modelled from the spec: body of `append_query_reply_energy` (missing from the
sources). -/
def append_query_reply_energy (w : JsonProtocolWriter) (consumed_energy : ℚ) (date : Date) :
    Except ProtocolError JsonProtocolWriter :=
  w.append_event date "QUERY_REPLY_ENERGY" (.query_reply_energy consumed_energy)

/-- Modelled from the spec: body of `clear` (missing from the sources): the
writer is reset to the empty state, the one of a newly created writer. -/
def clear (_w : JsonProtocolWriter) : JsonProtocolWriter :=
  { _is_empty := true, _last_date := -1, _events := [] }

/-- Modelled from the spec: body of `generate_current_message` (missing from the
sources). The message date must be greater than or equal to the dates of the
buffered events (at most `_last_date`), otherwise the call is fatal; the
message holds all the buffered events in order, and the writer is returned
with its buffer intact. -/
def generate_current_message (w : JsonProtocolWriter) (date : Date) :
    Except ProtocolError (Message × JsonProtocolWriter) :=
  if w._last_date ≤ date then
    .ok ({ now := date, events := w._events }, w)
  else
    .error .NonMonotonicTimestamp

end JsonProtocolWriter

/-- One call of an `append_*` member function of the writer, with its
arguments in the order of the declaration in `protocol.hpp`. -/
inductive AppendCall where
  | nop (date : Date)
  | submit_job (job_id : String) (date : Date) (job_description : String)
      (profile_description : String) (acknowledge_submission : Bool)
  | execute_job (job_id : String) (allocated_resources : MachineRange) (date : Date)
      (executor_to_allocated_resource_mapping : String)
  | reject_job (job_id : String) (date : Date)
  | kill_job (job_ids : List String) (date : Date)
  | set_resource_state (resources : MachineRange) (new_state : String) (date : Date)
  | call_me_later (future_date : Date) (date : Date)
  | submitter_may_submit_jobs (date : Date)
  | scheduler_finished_submitting_jobs (date : Date)
  | query_request (anything : List String) (date : Date)
  | simulation_begins (date : Date)
  | simulation_ends (date : Date)
  | job_submitted (job_ids : List String) (date : Date)
  | job_completed (job_id : String) (job_status : String) (date : Date)
  | job_killed (job_ids : List String) (date : Date)
  | resource_state_changed (resources : MachineRange) (new_state : String) (date : Date)
  | query_reply_energy (consumed_energy : ℚ) (date : Date)
  deriving DecidableEq

namespace AppendCall

/-- The `date` argument of the call. -/
def date : AppendCall → Date
  | nop d => d
  | submit_job _ d _ _ _ => d
  | execute_job _ _ d _ => d
  | reject_job _ d => d
  | kill_job _ d => d
  | set_resource_state _ _ d => d
  | call_me_later _ d => d
  | submitter_may_submit_jobs d => d
  | scheduler_finished_submitting_jobs d => d
  | query_request _ d => d
  | simulation_begins d => d
  | simulation_ends d => d
  | job_submitted _ d => d
  | job_completed _ _ d => d
  | job_killed _ d => d
  | resource_state_changed _ _ d => d
  | query_reply_energy _ d => d

/-- The event kind the call appends (the closed set of kinds of the spec). -/
def kind : AppendCall → String
  | nop _ => "NOP"
  | submit_job _ _ _ _ _ => "SUBMIT_JOB"
  | execute_job _ _ _ _ => "EXECUTE_JOB"
  | reject_job _ _ => "REJECT_JOB"
  | kill_job _ _ => "KILL_JOB"
  | set_resource_state _ _ _ => "SET_RESOURCE_STATE"
  | call_me_later _ _ => "CALL_ME_LATER"
  | submitter_may_submit_jobs _ => "SUBMITTER_MAY_SUBMIT_JOBS"
  | scheduler_finished_submitting_jobs _ => "SCHEDULER_FINISHED_SUBMITTING_JOBS"
  | query_request _ _ => "QUERY_REQUEST"
  | simulation_begins _ => "SIMULATION_BEGINS"
  | simulation_ends _ => "SIMULATION_ENDS"
  | job_submitted _ _ => "JOB_SUBMITTED"
  | job_completed _ _ _ => "JOB_COMPLETED"
  | job_killed _ _ => "JOB_KILLED"
  | resource_state_changed _ _ _ => "RESOURCE_STATE_CHANGED"
  | query_reply_energy _ _ => "QUERY_REPLY_ENERGY"

/-- The payload fields given to the call, other than the date. -/
def payload : AppendCall → EventData
  | nop _ => .empty
  | submit_job j _ jd pd a => .submit_job j jd pd a
  | execute_job j r _ m => .execute_job j r m
  | reject_job j _ => .reject_job j
  | kill_job js _ => .kill_job js
  | set_resource_state r s _ => .set_resource_state r s
  | call_me_later f _ => .call_me_later f
  | submitter_may_submit_jobs _ => .empty
  | scheduler_finished_submitting_jobs _ => .empty
  | query_request a _ => .query_request a
  | simulation_begins _ => .empty
  | simulation_ends _ => .empty
  | job_submitted js _ => .job_submitted js
  | job_completed j s _ => .job_completed j s
  | job_killed js _ => .job_killed js
  | resource_state_changed r s _ => .resource_state_changed r s
  | query_reply_energy e _ => .query_reply_energy e

end AppendCall

/-- The call of the member function an `AppendCall` stands for. -/
def JsonProtocolWriter.append (w : JsonProtocolWriter) :
    AppendCall → Except ProtocolError JsonProtocolWriter
  | .nop d => w.append_nop d
  | .submit_job j d jd pd a => w.append_submit_job j d jd pd a
  | .execute_job j r d m => w.append_execute_job j r d m
  | .reject_job j d => w.append_reject_job j d
  | .kill_job js d => w.append_kill_job js d
  | .set_resource_state r s d => w.append_set_resource_state r s d
  | .call_me_later f d => w.append_call_me_later f d
  | .submitter_may_submit_jobs d => w.append_submitter_may_submit_jobs d
  | .scheduler_finished_submitting_jobs d => w.append_scheduler_finished_submitting_jobs d
  | .query_request a d => w.append_query_request a d
  | .simulation_begins d => w.append_simulation_begins d
  | .simulation_ends d => w.append_simulation_ends d
  | .job_submitted js d => w.append_job_submitted js d
  | .job_completed j s d => w.append_job_completed j s d
  | .job_killed js d => w.append_job_killed js d
  | .resource_state_changed r s d => w.append_resource_state_changed r s d
  | .query_reply_energy e d => w.append_query_reply_energy e d

/-- One call of a member function that can change a writer. -/
inductive WriterOp where
  | append (call : AppendCall)
  | generate_current_message (date : Date)
  | clear
  deriving DecidableEq

/-- The writer after one call; a fatal call leaves no writer. The message
returned by `generate_current_message` is dropped here. -/
def JsonProtocolWriter.step (w : JsonProtocolWriter) :
    WriterOp → Except ProtocolError JsonProtocolWriter
  | .append call => w.append call
  | .generate_current_message date =>
    match w.generate_current_message date with
    | .ok (_, w2) => .ok w2
    | .error e => .error e
  | .clear => .ok w.clear

/-- The writer after a sequence of calls, stopping at the first fatal one. -/
def JsonProtocolWriter.run : JsonProtocolWriter → List WriterOp →
    Except ProtocolError JsonProtocolWriter
  | w, [] => .ok w
  | w, op :: ops =>
    match w.step op with
    | .ok w2 => JsonProtocolWriter.run w2 ops
    | .error e => .error e

/-- A writer state that a newly created writer reaches by some sequence of
calls of its member functions. -/
def JsonProtocolWriter.Reachable (w : JsonProtocolWriter) : Prop :=
  ∃ ops : List WriterOp, JsonProtocolWriter.create.run ops = .ok w

/-- The writer a new writer becomes after `append_nop(2)` and
`append_reject_job("job1", 5)`. -/
def sample_writer : JsonProtocolWriter :=
  { _is_empty := false
    _last_date := 5
    _events := [{ timestamp := 2, type := "NOP", data := .empty },
                { timestamp := 5, type := "REJECT_JOB", data := .reject_job "job1" }] }

/-! ## `protocol.hpp`: `JsonProtocolReader` -/

/-- Modelled from the spec: the states of a job that the handlers distinguish
(the job registry is a collaborator, not among the sources). -/
inductive JobState where
  | SUBMITTED
  | RUNNING
  | COMPLETED
  deriving DecidableEq

/-- Modelled from the spec: the collaborators reached through `BatsimContext`
(only forward-declared in `protocol.hpp`), as the queries the handlers make:
job existence and state, validity and availability of machine identifiers,
shape of an executor mapping string. -/
structure BatsimContext where
  job_exists : String → Bool
  job_state : String → JobState
  machines_valid : MachineRange → Bool
  machines_available : MachineRange → Bool
  mapping_well_formed : String → Bool

/-- Modelled from the spec: what a handler injects in the simulation (the
`type` and `data` arguments of `dsend_message`; `ipp.hpp` is not among the
sources). `wake_up target` asks for a wake-up of the decision process at the
simulated time `target`. -/
inductive IPMessage where
  | query (requests : List String)
  | reject_job (job_id : String)
  | execute_job (job_id : String) (allocated_resources : MachineRange) (mapping : String)
  | wake_up (target : Date)
  | set_resource_state (resources : MachineRange) (new_state : String)
  | notify (what : String)
  | submit_job (job_id job_description profile_description : String)
      (acknowledge_submission : Bool)
  | kill_jobs (job_ids : List String)
  deriving DecidableEq

/-- Modelled from the spec: an action scheduled by `dsend_message`, delivered to
`destination_mailbox` at a simulated time not before `when`. -/
structure ScheduledMessage where
  when : Date
  destination_mailbox : String
  message : IPMessage
  deriving DecidableEq

/-- The handler member functions declared by `JsonProtocolReader`. -/
inductive Handler where
  | handle_query_request
  | handle_reject_job
  | handle_execute_job
  | handle_call_me_later
  | handle_set_resource_state
  | handle_notify
  | handle_submit_job
  | handle_kill_job
  deriving DecidableEq

/-- One invocation of a handler, with the arguments of its declaration:
`(int event_number, double timestamp, const rapidjson::Value & data_object)`. -/
structure HandlerCall where
  handler : Handler
  event_number : Nat
  timestamp : Date
  data_object : EventData
  deriving DecidableEq

/-- The data members of `JsonProtocolReader` that vary: the context. -/
structure JsonProtocolReader where
  context : BatsimContext

namespace JsonProtocolReader

/-- The member `accepted_requests = {"consumed_energy"}`. -/
def accepted_requests : List String := ["consumed_energy"]

/-- Modelled from the spec: the content of `_type_to_handler_map` (filled by the
constructor, missing from the sources): one entry per handler the class
declares, under the event type of the spec it handles. -/
def _type_to_handler_map : List (String × Handler) :=
  [("QUERY_REQUEST", .handle_query_request),
   ("REJECT_JOB", .handle_reject_job),
   ("EXECUTE_JOB", .handle_execute_job),
   ("CALL_ME_LATER", .handle_call_me_later),
   ("SET_RESOURCE_STATE", .handle_set_resource_state),
   ("NOTIFY", .handle_notify),
   ("SUBMIT_JOB", .handle_submit_job),
   ("KILL_JOB", .handle_kill_job)]

/-- Modelled from the spec: body of `dsend_message` (missing from the sources):
the action is not applied at once but scheduled at the simulated time `when`.
The scheduled action is returned. -/
def dsend_message (when : Date) (destination_mailbox : String) (message : IPMessage) :
    ScheduledMessage :=
  { when := when, destination_mailbox := destination_mailbox, message := message }

/-- Modelled from the spec: body of `handle_query_request` (missing from the
sources): every requested kind must be in `accepted_requests`. -/
def handle_query_request (_r : JsonProtocolReader) (event_number : Nat) (timestamp : Date) :
    EventData → Except ProtocolError (List ScheduledMessage)
  | .query_request requests =>
    match requests.find? (fun k => decide (k ∉ accepted_requests)) with
    | some k => .error (.DisallowedQueryRequest event_number k)
    | none => .ok [dsend_message timestamp "server" (.query requests)]
  | _ => .error (.MalformedEvent event_number)

/-- Modelled from the spec: body of `handle_reject_job` (missing from the
sources): the job must exist and be in the submitted state. -/
def handle_reject_job (r : JsonProtocolReader) (event_number : Nat) (timestamp : Date) :
    EventData → Except ProtocolError (List ScheduledMessage)
  | .reject_job job_id =>
    if r.context.job_exists job_id ∧ r.context.job_state job_id = .SUBMITTED then
      .ok [dsend_message timestamp "server" (.reject_job job_id)]
    else
      .error (.InvalidJob event_number job_id)
  | _ => .error (.MalformedEvent event_number)

/-- Modelled from the spec: body of `handle_execute_job` (missing from the
sources): the job must exist, the resources must be valid and available
machine identifiers, and a given executor mapping must be well formed. -/
def handle_execute_job (r : JsonProtocolReader) (event_number : Nat) (timestamp : Date) :
    EventData → Except ProtocolError (List ScheduledMessage)
  | .execute_job job_id resources mapping =>
    if r.context.job_exists job_id then
      if r.context.machines_valid resources ∧ r.context.machines_available resources then
        if mapping = "" ∨ r.context.mapping_well_formed mapping then
          .ok [dsend_message timestamp "server" (.execute_job job_id resources mapping)]
        else
          .error (.InvalidMapping event_number)
      else
        .error (.InvalidResources event_number)
    else
      .error (.InvalidJob event_number job_id)
  | _ => .error (.MalformedEvent event_number)

/-- Modelled from the spec: body of `handle_call_me_later` (missing from the
sources): `future_date` must be strictly greater than the timestamp of the
event; a wake-up of the decision process is scheduled at that date. -/
def handle_call_me_later (_r : JsonProtocolReader) (event_number : Nat) (timestamp : Date) :
    EventData → Except ProtocolError (List ScheduledMessage)
  | .call_me_later future_date =>
    if timestamp < future_date then
      .ok [dsend_message timestamp "server" (.wake_up future_date)]
    else
      .error (.InvalidFutureDate event_number)
  | _ => .error (.MalformedEvent event_number)

/-- Modelled from the spec: body of `handle_set_resource_state` (missing from the
sources): the resources must be valid; the new state is forwarded as it is. -/
def handle_set_resource_state (r : JsonProtocolReader) (event_number : Nat)
    (timestamp : Date) : EventData → Except ProtocolError (List ScheduledMessage)
  | .set_resource_state resources new_state =>
    if r.context.machines_valid resources then
      .ok [dsend_message timestamp "server" (.set_resource_state resources new_state)]
    else
      .error (.InvalidResources event_number)
  | _ => .error (.MalformedEvent event_number)

/-- Modelled from the spec: body of `handle_notify` (missing from the sources):
the notification is forwarded. -/
def handle_notify (_r : JsonProtocolReader) (event_number : Nat) (timestamp : Date) :
    EventData → Except ProtocolError (List ScheduledMessage)
  | .notify what => .ok [dsend_message timestamp "server" (.notify what)]
  | _ => .error (.MalformedEvent event_number)

/-- Modelled from the spec: body of `handle_submit_job` (missing from the
sources): the submission is forwarded. -/
def handle_submit_job (_r : JsonProtocolReader) (event_number : Nat) (timestamp : Date) :
    EventData → Except ProtocolError (List ScheduledMessage)
  | .submit_job job_id job_description profile_description acknowledge_submission =>
    .ok [dsend_message timestamp "server"
      (.submit_job job_id job_description profile_description acknowledge_submission)]
  | _ => .error (.MalformedEvent event_number)

/-- Modelled from the spec: body of `handle_kill_job` (missing from the sources):
every named job must exist; completed jobs are ignored and the other ones are
killed. -/
def handle_kill_job (r : JsonProtocolReader) (event_number : Nat) (timestamp : Date) :
    EventData → Except ProtocolError (List ScheduledMessage)
  | .kill_job job_ids =>
    match job_ids.find? (fun j => !r.context.job_exists j) with
    | some j => .error (.InvalidJob event_number j)
    | none =>
      .ok [dsend_message timestamp "server"
        (.kill_jobs (job_ids.filter (fun j => decide (r.context.job_state j ≠ .COMPLETED))))]
  | _ => .error (.MalformedEvent event_number)

/-- The member function a `Handler` value names. -/
def invoke (r : JsonProtocolReader) :
    Handler → Nat → Date → EventData → Except ProtocolError (List ScheduledMessage)
  | .handle_query_request => r.handle_query_request
  | .handle_reject_job => r.handle_reject_job
  | .handle_execute_job => r.handle_execute_job
  | .handle_call_me_later => r.handle_call_me_later
  | .handle_set_resource_state => r.handle_set_resource_state
  | .handle_notify => r.handle_notify
  | .handle_submit_job => r.handle_submit_job
  | .handle_kill_job => r.handle_kill_job

/-- Modelled from the spec: body of `parse_and_apply_event` (missing from the
sources): the timestamp of the event must not exceed the message timestamp
`now`; the event is dispatched by its type tag through `_type_to_handler_map`,
an unknown type being fatal; the handler is invoked with the event number, the
timestamp and the data. Returns the invocation made and what it scheduled. -/
def parse_and_apply_event (r : JsonProtocolReader) (event_object : Event)
    (event_number : Nat) (now : Date) :
    Except ProtocolError (HandlerCall × List ScheduledMessage) :=
  if event_object.timestamp ≤ now then
    match _type_to_handler_map.lookup event_object.type with
    | none => .error (.UnknownEventType event_number event_object.type)
    | some handler =>
      match r.invoke handler event_number event_object.timestamp event_object.data with
      | .ok scheduled =>
        .ok ({ handler := handler, event_number := event_number
               timestamp := event_object.timestamp, data_object := event_object.data },
             scheduled)
      | .error e => .error e
  else
    .error .NonMonotonicTimestamp

end JsonProtocolReader

/-- A mock set of collaborators: every job exists, `job1` is submitted and the
other jobs are running, machines `0` to `3` are valid and available, every
mapping string is well formed. -/
def mock_context : BatsimContext where
  job_exists := fun _ => true
  job_state := fun j => if j = "job1" then .SUBMITTED else .RUNNING
  machines_valid := fun m => decide (m ⊆ {0, 1, 2, 3})
  machines_available := fun m => decide (m ⊆ {0, 1, 2, 3})
  mapping_well_formed := fun _ => true
/-! ## Properties of the plugin loader -/

/-- The result of the constructor, by cases on the four pointers it tests. -/
theorem construct_result (ld : DynamicLinker) (lib_path : String)
    (load_method : EdcLibraryLoadMethod) :
    (ExternalLibrary.construct ld lib_path load_method).result =
      if open_library ld lib_path load_method = 0 then .error .NotFound
      else if ld.dlsym (open_library ld lib_path load_method) "batsim_edc_init" = 0 then
        .error (.SymbolMissing "batsim_edc_init")
      else if ld.dlsym (open_library ld lib_path load_method) "batsim_edc_deinit" = 0 then
        .error (.SymbolMissing "batsim_edc_deinit")
      else if ld.dlsym (open_library ld lib_path load_method) "batsim_edc_take_decisions" = 0 then
        .error (.SymbolMissing "batsim_edc_take_decisions")
      else .ok
        { lib_handle := open_library ld lib_path load_method
          init := ld.dlsym (open_library ld lib_path load_method) "batsim_edc_init"
          deinit := ld.dlsym (open_library ld lib_path load_method) "batsim_edc_deinit"
          take_decisions :=
            ld.dlsym (open_library ld lib_path load_method) "batsim_edc_take_decisions" } := by
  unfold ExternalLibrary.construct load_lib_symbol
  by_cases h0 : open_library ld lib_path load_method = 0
  · simp [h0]
  · by_cases h1 : ld.dlsym (open_library ld lib_path load_method) "batsim_edc_init" = 0
    · simp [h0, h1]
    · by_cases h2 : ld.dlsym (open_library ld lib_path load_method) "batsim_edc_deinit" = 0
      · simp [h0, h1, h2]
      · by_cases h3 :
          ld.dlsym (open_library ld lib_path load_method) "batsim_edc_take_decisions" = 0
        · simp [h0, h1, h2, h3]
        · simp [h0, h1, h2, h3]

/-- Every call the constructor records is the open call or a symbol lookup in
the opened library: it never calls through a function pointer. -/
theorem construct_trace_calls (ld : DynamicLinker) (lib_path : String)
    (load_method : EdcLibraryLoadMethod) :
    ∀ c ∈ (ExternalLibrary.construct ld lib_path load_method).trace,
      c = open_call lib_path load_method ∨
      ∃ s ∈ required_symbols, c = Call.dlsym (open_library ld lib_path load_method) s := by
  intro c hc
  unfold ExternalLibrary.construct load_lib_symbol at hc
  simp only [required_symbols, List.mem_cons, List.mem_singleton, exists_eq_or_imp,
    exists_eq_left, List.not_mem_nil, false_and, exists_false, or_false]
  by_cases h0 : open_library ld lib_path load_method = 0
  · simp [h0] at hc
    exact Or.inl hc
  · by_cases h1 : ld.dlsym (open_library ld lib_path load_method) "batsim_edc_init" = 0
    · simp [h0, h1] at hc
      tauto
    · by_cases h2 : ld.dlsym (open_library ld lib_path load_method) "batsim_edc_deinit" = 0
      · simp [h0, h1, h2] at hc
        tauto
      · by_cases h3 :
          ld.dlsym (open_library ld lib_path load_method) "batsim_edc_take_decisions" = 0
        · simp [h0, h1, h2, h3] at hc
          tauto
        · simp [h0, h1, h2, h3] at hc
          tauto

/-- The constructor never runs code of the library. -/
theorem construct_no_invoke (ld : DynamicLinker) (lib_path : String)
    (load_method : EdcLibraryLoadMethod) :
    ∀ c ∈ (ExternalLibrary.construct ld lib_path load_method).trace, c.is_invoke = false := by
  intro c hc
  rcases construct_trace_calls ld lib_path load_method c hc with h | ⟨s, _, h⟩
  · subst h
    cases load_method <;> rfl
  · subst h
    rfl


/-- C1: when the binary opens but one of the three entry points
`batsim_edc_init`, `batsim_edc_deinit`, `batsim_edc_take_decisions` does not
resolve, the construction fails with `SymbolMissing` (naming a required symbol
that does not resolve), yields no handle, and no entry point of the library is
invoked, whatever the path and the load method. -/
theorem load_fails_when_symbol_missing (ld : DynamicLinker) (lib_path : String)
    (load_method : EdcLibraryLoadMethod)
    (hopen : open_library ld lib_path load_method ≠ 0)
    (hmiss : ∃ s ∈ required_symbols, ld.dlsym (open_library ld lib_path load_method) s = 0) :
    (∃ s ∈ required_symbols,
        ld.dlsym (open_library ld lib_path load_method) s = 0 ∧
        (ExternalLibrary.construct ld lib_path load_method).result =
          .error (.SymbolMissing s)) ∧
    (∀ lib, (ExternalLibrary.construct ld lib_path load_method).result ≠ .ok lib) ∧
    (∀ c ∈ (ExternalLibrary.construct ld lib_path load_method).trace,
        c.is_invoke = false) := by
  have hres := construct_result ld lib_path load_method
  simp only [hopen, if_false] at hres
  simp only [required_symbols, List.mem_cons, List.mem_singleton, exists_eq_or_imp,
    exists_eq_left, List.not_mem_nil, false_and, exists_false, or_false] at hmiss ⊢
  refine ⟨?_, ?_, construct_no_invoke ld lib_path load_method⟩
  · by_cases h1 : ld.dlsym (open_library ld lib_path load_method) "batsim_edc_init" = 0
    · left
      exact ⟨h1, by simpa [h1] using hres⟩
    · by_cases h2 : ld.dlsym (open_library ld lib_path load_method) "batsim_edc_deinit" = 0
      · right; left
        exact ⟨h2, by simpa [h1, h2] using hres⟩
      · have h3 :
            ld.dlsym (open_library ld lib_path load_method) "batsim_edc_take_decisions" = 0 := by
          tauto
        right; right
        exact ⟨h3, by simpa [h1, h2, h3] using hres⟩
  · intro lib hlib
    rw [hlib] at hres
    by_cases h1 : ld.dlsym (open_library ld lib_path load_method) "batsim_edc_init" = 0
    · simp [h1] at hres
    · by_cases h2 : ld.dlsym (open_library ld lib_path load_method) "batsim_edc_deinit" = 0
      · simp [h1, h2] at hres
      · have h3 :
            ld.dlsym (open_library ld lib_path load_method) "batsim_edc_take_decisions" = 0 := by
          tauto
        simp [h1, h2, h3] at hres

/-- C1 at a library that opens and exports `batsim_edc_init` and
`batsim_edc_take_decisions` but not `batsim_edc_deinit`, loaded with `dlmopen`. -/
theorem load_fails_when_symbol_missing_witness :
    open_library (sample_linker ["batsim_edc_init", "batsim_edc_take_decisions"])
        "/lib/sched.so" .DLMOPEN ≠ 0 ∧
    (ExternalLibrary.construct (sample_linker ["batsim_edc_init", "batsim_edc_take_decisions"])
        "/lib/sched.so" .DLMOPEN).result = .error (.SymbolMissing "batsim_edc_deinit") ∧
    (∀ c ∈ (ExternalLibrary.construct
        (sample_linker ["batsim_edc_init", "batsim_edc_take_decisions"])
        "/lib/sched.so" .DLMOPEN).trace, c.is_invoke = false) :=
  ⟨by decide, by decide,
    (load_fails_when_symbol_missing
      (sample_linker ["batsim_edc_init", "batsim_edc_take_decisions"]) "/lib/sched.so" .DLMOPEN
      (by decide) ⟨"batsim_edc_deinit", by decide, by decide⟩).2.2⟩

/-- C2: when the open call returns `NULL`, the construction fails with
`NotFound`, which is not a `SymbolMissing` error; the open call is the only call
made, so no symbol is looked up and no entry point is invoked, for every path
and both load methods. -/
theorem load_fails_when_not_found (ld : DynamicLinker) (lib_path : String)
    (load_method : EdcLibraryLoadMethod)
    (hnull : open_library ld lib_path load_method = 0) :
    (ExternalLibrary.construct ld lib_path load_method).result = .error .NotFound ∧
    (∀ s, (ExternalLibrary.construct ld lib_path load_method).result ≠
        .error (.SymbolMissing s)) ∧
    (ExternalLibrary.construct ld lib_path load_method).trace =
        [open_call lib_path load_method] ∧
    (∀ c ∈ (ExternalLibrary.construct ld lib_path load_method).trace,
        c.is_dlsym = false ∧ c.is_invoke = false) := by
  have hres : (ExternalLibrary.construct ld lib_path load_method).result = .error .NotFound := by
    rw [construct_result]; simp [hnull]
  have htr : (ExternalLibrary.construct ld lib_path load_method).trace =
      [open_call lib_path load_method] := by
    unfold ExternalLibrary.construct
    simp [hnull]
  refine ⟨hres, ?_, htr, ?_⟩
  · intro s hs
    rw [hres] at hs
    cases hs
  · intro c hc
    rw [htr] at hc
    simp only [List.mem_singleton] at hc
    subst hc
    cases load_method <;> exact ⟨rfl, rfl⟩

/-- C2 at a path the sample linker cannot open, loaded with `dlopen`. -/
theorem load_fails_when_not_found_witness :
    open_library (sample_linker required_symbols) "/lib/absent.so" .DLOPEN = 0 ∧
    (ExternalLibrary.construct (sample_linker required_symbols)
        "/lib/absent.so" .DLOPEN).result = .error .NotFound ∧
    (ExternalLibrary.construct (sample_linker required_symbols)
        "/lib/absent.so" .DLOPEN).trace = [Call.dlopen "/lib/absent.so" 10] :=
  ⟨by decide,
    (load_fails_when_not_found (sample_linker required_symbols) "/lib/absent.so" .DLOPEN
      (by decide)).1,
    by decide⟩

/-- C3: the construction succeeds exactly when the open call returns a non-null
handle and the three required symbols resolve to non-null addresses in it; the
handle it then returns holds the opened library and, for `init`, `deinit` and
`take_decisions`, the addresses `dlsym` gives in that same library for
`batsim_edc_init`, `batsim_edc_deinit` and `batsim_edc_take_decisions`. -/
theorem load_succeeds_iff_all_resolved (ld : DynamicLinker) (lib_path : String)
    (load_method : EdcLibraryLoadMethod) :
    ((∃ lib, (ExternalLibrary.construct ld lib_path load_method).result = .ok lib) ↔
      (open_library ld lib_path load_method ≠ 0 ∧
        ∀ s ∈ required_symbols, ld.dlsym (open_library ld lib_path load_method) s ≠ 0)) ∧
    (∀ lib, (ExternalLibrary.construct ld lib_path load_method).result = .ok lib →
      lib.lib_handle = open_library ld lib_path load_method ∧
      lib.lib_handle ≠ 0 ∧
      lib.init = ld.dlsym lib.lib_handle "batsim_edc_init" ∧
      lib.deinit = ld.dlsym lib.lib_handle "batsim_edc_deinit" ∧
      lib.take_decisions = ld.dlsym lib.lib_handle "batsim_edc_take_decisions" ∧
      lib.init ≠ 0 ∧ lib.deinit ≠ 0 ∧ lib.take_decisions ≠ 0) := by
  have hres := construct_result ld lib_path load_method
  simp only [required_symbols, List.mem_cons, List.mem_singleton, forall_eq_or_imp,
    forall_eq, List.not_mem_nil, false_implies, implies_true, and_true]
  by_cases h0 : open_library ld lib_path load_method = 0
  · simp [h0] at hres
    simp [hres, h0]
  · by_cases h1 : ld.dlsym (open_library ld lib_path load_method) "batsim_edc_init" = 0
    · simp [h0, h1] at hres
      simp [hres, h1]
    · by_cases h2 : ld.dlsym (open_library ld lib_path load_method) "batsim_edc_deinit" = 0
      · simp [h0, h1, h2] at hres
        simp [hres, h2]
      · by_cases h3 :
          ld.dlsym (open_library ld lib_path load_method) "batsim_edc_take_decisions" = 0
        · simp [h0, h1, h2, h3] at hres
          simp [hres, h3]
        · simp only [h0, h1, h2, h3, if_false] at hres
          refine ⟨⟨fun _ => ⟨h0, h1, h2, h3⟩, fun _ => ⟨_, hres⟩⟩, ?_⟩
          intro lib hlib
          rw [hres] at hlib
          cases hlib
          exact ⟨rfl, h0, rfl, rfl, rfl, h1, h2, h3⟩

/-- C3 at a library that opens and exports the three symbols: the handle holds
the library (handle `7`) and the three addresses in symbol order. -/
theorem load_succeeds_iff_all_resolved_witness :
    (ExternalLibrary.construct (sample_linker required_symbols)
        "/lib/sched.so" .DLMOPEN).result =
      .ok { lib_handle := 7, init := 100, deinit := 101, take_decisions := 102 } ∧
    (7 = open_library (sample_linker required_symbols) "/lib/sched.so" .DLMOPEN ∧
      7 ≠ 0 ∧
      100 = (sample_linker required_symbols).dlsym 7 "batsim_edc_init" ∧
      101 = (sample_linker required_symbols).dlsym 7 "batsim_edc_deinit" ∧
      102 = (sample_linker required_symbols).dlsym 7 "batsim_edc_take_decisions" ∧
      100 ≠ 0 ∧ 101 ≠ 0 ∧ 102 ≠ 0) :=
  ⟨by decide,
    (load_succeeds_iff_all_resolved (sample_linker required_symbols) "/lib/sched.so"
      .DLMOPEN).2 { lib_handle := 7, init := 100, deinit := 101, take_decisions := 102 }
      (by decide)⟩

/-- The calls of the constructor, by cases on the four pointers it tests: the
open call, then the lookups up to and including the first that fails. -/
theorem construct_trace (ld : DynamicLinker) (lib_path : String)
    (load_method : EdcLibraryLoadMethod) :
    (ExternalLibrary.construct ld lib_path load_method).trace =
      open_call lib_path load_method ::
        if open_library ld lib_path load_method = 0 then []
        else if ld.dlsym (open_library ld lib_path load_method) "batsim_edc_init" = 0 then
          [Call.dlsym (open_library ld lib_path load_method) "batsim_edc_init"]
        else if ld.dlsym (open_library ld lib_path load_method) "batsim_edc_deinit" = 0 then
          [Call.dlsym (open_library ld lib_path load_method) "batsim_edc_init",
           Call.dlsym (open_library ld lib_path load_method) "batsim_edc_deinit"]
        else
          [Call.dlsym (open_library ld lib_path load_method) "batsim_edc_init",
           Call.dlsym (open_library ld lib_path load_method) "batsim_edc_deinit",
           Call.dlsym (open_library ld lib_path load_method) "batsim_edc_take_decisions"] := by
  unfold ExternalLibrary.construct load_lib_symbol
  by_cases h0 : open_library ld lib_path load_method = 0
  · simp [h0]
  · by_cases h1 : ld.dlsym (open_library ld lib_path load_method) "batsim_edc_init" = 0
    · simp [h0, h1]
    · by_cases h2 : ld.dlsym (open_library ld lib_path load_method) "batsim_edc_deinit" = 0
      · simp [h0, h1, h2]
      · by_cases h3 :
          ld.dlsym (open_library ld lib_path load_method) "batsim_edc_take_decisions" = 0
        · simp [h0, h1, h2, h3]
        · simp [h0, h1, h2, h3]

/-- The open call is an open call, whatever the load method. -/
theorem open_call_is_open (lib_path : String) (load_method : EdcLibraryLoadMethod) :
    (open_call lib_path load_method).is_open = true := by
  cases load_method <;> rfl

/-- The constructor makes exactly one open call, the first of its calls. -/
theorem construct_opens_once (ld : DynamicLinker) (lib_path : String)
    (load_method : EdcLibraryLoadMethod) :
    (ExternalLibrary.construct ld lib_path load_method).trace.filter Call.is_open =
      [open_call lib_path load_method] ∧
    (ExternalLibrary.construct ld lib_path load_method).trace.head? =
      some (open_call lib_path load_method) := by
  rw [construct_trace]
  refine ⟨?_, rfl⟩
  rw [List.filter_cons, open_call_is_open lib_path load_method]
  simp only [if_true, List.cons.injEq, true_and]
  split_ifs <;> simp [Call.is_open]

/-- C11: for every library path the constructor makes exactly one open call, the
first of its calls. With `DLMOPEN` it is `dlmopen` in the fresh namespace
`LM_ID_NEWLM`, with `DLOPEN` it is `dlopen`, which has no namespace argument and
loads in the default namespace; both pass the same path and the same flag word
`RTLD_NOW | RTLD_LOCAL | RTLD_DEEPBIND`, in which the bits of eager and of deep
binding are set and those of lazy binding and of global visibility are not. The
handle kept is the one that call returned and, when the two calls return the
same handle, the lookups that follow and the result are the same. -/
theorem load_opens_once_in_selected_namespace (ld : DynamicLinker) (lib_path : String) :
    ((ExternalLibrary.construct ld lib_path .DLMOPEN).trace.filter Call.is_open =
        [Call.dlmopen LM_ID_NEWLM lib_path (RTLD_NOW ||| RTLD_LOCAL ||| RTLD_DEEPBIND)] ∧
      (ExternalLibrary.construct ld lib_path .DLMOPEN).trace.head? =
        some (Call.dlmopen LM_ID_NEWLM lib_path (RTLD_NOW ||| RTLD_LOCAL ||| RTLD_DEEPBIND))) ∧
    ((ExternalLibrary.construct ld lib_path .DLOPEN).trace.filter Call.is_open =
        [Call.dlopen lib_path (RTLD_NOW ||| RTLD_LOCAL ||| RTLD_DEEPBIND)] ∧
      (ExternalLibrary.construct ld lib_path .DLOPEN).trace.head? =
        some (Call.dlopen lib_path (RTLD_NOW ||| RTLD_LOCAL ||| RTLD_DEEPBIND))) ∧
    ((RTLD_NOW ||| RTLD_LOCAL ||| RTLD_DEEPBIND) &&& RTLD_NOW = RTLD_NOW ∧
      (RTLD_NOW ||| RTLD_LOCAL ||| RTLD_DEEPBIND) &&& RTLD_DEEPBIND = RTLD_DEEPBIND ∧
      (RTLD_NOW ||| RTLD_LOCAL ||| RTLD_DEEPBIND) &&& RTLD_LAZY = 0 ∧
      (RTLD_NOW ||| RTLD_LOCAL ||| RTLD_DEEPBIND) &&& RTLD_GLOBAL = 0) ∧
    (∀ lib, (ExternalLibrary.construct ld lib_path .DLMOPEN).result = .ok lib →
      lib.lib_handle =
        ld.dlmopen LM_ID_NEWLM lib_path (RTLD_NOW ||| RTLD_LOCAL ||| RTLD_DEEPBIND)) ∧
    (∀ lib, (ExternalLibrary.construct ld lib_path .DLOPEN).result = .ok lib →
      lib.lib_handle = ld.dlopen lib_path (RTLD_NOW ||| RTLD_LOCAL ||| RTLD_DEEPBIND)) ∧
    (ld.dlmopen LM_ID_NEWLM lib_path (RTLD_NOW ||| RTLD_LOCAL ||| RTLD_DEEPBIND) =
        ld.dlopen lib_path (RTLD_NOW ||| RTLD_LOCAL ||| RTLD_DEEPBIND) →
      (ExternalLibrary.construct ld lib_path .DLMOPEN).result =
        (ExternalLibrary.construct ld lib_path .DLOPEN).result ∧
      (ExternalLibrary.construct ld lib_path .DLMOPEN).trace.tail =
        (ExternalLibrary.construct ld lib_path .DLOPEN).trace.tail) := by
  have hhandle : ∀ (m : EdcLibraryLoadMethod) (lib : ExternalLibrary),
      (ExternalLibrary.construct ld lib_path m).result = .ok lib →
      lib.lib_handle = open_library ld lib_path m := by
    intro m lib hlib
    have hres := construct_result ld lib_path m
    rw [hlib] at hres
    split_ifs at hres
    exact congrArg ExternalLibrary.lib_handle (Except.ok.inj hres)
  refine ⟨construct_opens_once ld lib_path .DLMOPEN, construct_opens_once ld lib_path .DLOPEN,
    by decide, hhandle .DLMOPEN, hhandle .DLOPEN, ?_⟩
  intro hsame
  have hopen : open_library ld lib_path .DLMOPEN = open_library ld lib_path .DLOPEN := hsame
  constructor
  · rw [construct_result, construct_result, hopen]
  · rw [construct_trace, construct_trace, hopen]
    rfl

/-- C11 at the sample library: the single open call of each load method, and
the handle `7` kept from it. -/
theorem load_opens_once_in_selected_namespace_witness :
    (ExternalLibrary.construct (sample_linker required_symbols) "/lib/sched.so"
        .DLMOPEN).trace.filter Call.is_open = [Call.dlmopen (-1) "/lib/sched.so" 10] ∧
    (ExternalLibrary.construct (sample_linker required_symbols) "/lib/sched.so"
        .DLOPEN).trace.filter Call.is_open = [Call.dlopen "/lib/sched.so" 10] ∧
    (7 : Nat) = (sample_linker required_symbols).dlmopen LM_ID_NEWLM "/lib/sched.so"
        (RTLD_NOW ||| RTLD_LOCAL ||| RTLD_DEEPBIND) :=
  ⟨(load_opens_once_in_selected_namespace (sample_linker required_symbols)
      "/lib/sched.so").1.1,
    (load_opens_once_in_selected_namespace (sample_linker required_symbols)
      "/lib/sched.so").2.1.1,
    (load_opens_once_in_selected_namespace (sample_linker required_symbols)
      "/lib/sched.so").2.2.2.1
      { lib_handle := 7, init := 100, deinit := 101, take_decisions := 102 } (by decide)⟩

/-- C12: the destructor makes exactly two calls, `deinit` through the member
function pointer and then `dlclose` on the member handle: one invocation of
`deinit`, one close, the invocation before the close and no invocation after
it, and this whatever the status the invoked function returns. For a handle
obtained from a successful load, the function invoked is the one resolved for
`batsim_edc_deinit` and the library closed is the one the load opened. -/
theorem teardown_calls_deinit_then_closes (ld : DynamicLinker) (lib : ExternalLibrary) :
    ExternalLibrary.destruct ld lib = [Call.invoke lib.deinit, Call.dlclose lib.lib_handle] ∧
    (ExternalLibrary.destruct ld lib).filter Call.is_invoke = [Call.invoke lib.deinit] ∧
    (ExternalLibrary.destruct ld lib).filter Call.is_dlclose =
      [Call.dlclose lib.lib_handle] ∧
    (∀ before after : List Call,
      ExternalLibrary.destruct ld lib = before ++ Call.dlclose lib.lib_handle :: after →
      Call.invoke lib.deinit ∈ before ∧ ∀ c ∈ after, c.is_invoke = false) ∧
    (∀ status : Nat → Nat,
      ExternalLibrary.destruct { ld with entry_status := status } lib =
        [Call.invoke lib.deinit, Call.dlclose lib.lib_handle]) ∧
    (∀ (lib_path : String) (load_method : EdcLibraryLoadMethod),
      (ExternalLibrary.construct ld lib_path load_method).result = .ok lib →
      ExternalLibrary.destruct ld lib =
        [Call.invoke (ld.dlsym (open_library ld lib_path load_method) "batsim_edc_deinit"),
         Call.dlclose (open_library ld lib_path load_method)]) := by
  refine ⟨rfl, rfl, rfl, ?_, fun _ => rfl, ?_⟩
  · intro before after h
    simp only [ExternalLibrary.destruct] at h
    rcases before with _ | ⟨a, before⟩
    · simp at h
    · rcases before with _ | ⟨b, before⟩
      · simp only [List.cons_append, List.nil_append, List.cons.injEq] at h
        obtain ⟨ha, _, hafter⟩ := h
        subst ha
        subst hafter
        exact ⟨List.mem_singleton.mpr rfl, fun c hc => by cases hc⟩
      · simp only [List.cons_append, List.cons.injEq] at h
        obtain ⟨_, _, hnil⟩ := h
        have hlen := congrArg List.length hnil
        simp only [List.length_nil, List.length_append, List.length_cons] at hlen
        omega
  · intro lib_path load_method hlib
    have hres := construct_result ld lib_path load_method
    rw [hlib] at hres
    split_ifs at hres
    have heq := Except.ok.inj hres
    subst heq
    rfl

/-- C12 at the handle loaded from the sample library: `deinit` at address `101`
is invoked, then the library with handle `7` is closed. -/
theorem teardown_calls_deinit_then_closes_witness :
    (ExternalLibrary.construct (sample_linker required_symbols) "/lib/sched.so"
        .DLMOPEN).result =
      .ok { lib_handle := 7, init := 100, deinit := 101, take_decisions := 102 } ∧
    ExternalLibrary.destruct (sample_linker required_symbols)
        { lib_handle := 7, init := 100, deinit := 101, take_decisions := 102 } =
      [Call.invoke 101, Call.dlclose 7] :=
  ⟨by decide,
    (teardown_calls_deinit_then_closes (sample_linker required_symbols)
      { lib_handle := 7, init := 100, deinit := 101, take_decisions := 102 }).2.2.2.2.2
      "/lib/sched.so" .DLMOPEN (by decide)⟩

/-- The owner calls are invocations, so that filtering the invocations keeps
them all. -/
theorem filter_invoke_owner_calls (lib : ExternalLibrary) (uses : List OwnerCall) :
    (uses.map lib.owner_call).filter Call.is_invoke = uses.map lib.owner_call := by
  induction uses with
  | nil => rfl
  | cons u us ih =>
    cases u <;>
      simp only [List.map_cons, ExternalLibrary.owner_call, List.filter_cons, Call.is_invoke,
        if_true, ih]

/-- The constructor records no invocation. -/
theorem filter_invoke_construct (ld : DynamicLinker) (lib_path : String)
    (load_method : EdcLibraryLoadMethod) :
    (ExternalLibrary.construct ld lib_path load_method).trace.filter Call.is_invoke = [] := by
  rw [List.filter_eq_nil_iff]
  intro c hc
  simp [construct_no_invoke ld lib_path load_method c hc]

/-- C13, as stated, fails: the constructor does not call `init` and the
destructor calls `deinit` without any test. In the lifetime of the sample
library in which the owner calls nothing, `init` (address `100`) is never
invoked and `deinit` (address `101`) is; in the one in which the owner only
calls `take_decisions` (address `102`), it is invoked without `init` before. -/
theorem lifetime_calls_deinit_without_init :
    (ExternalLibrary.construct (sample_linker required_symbols) "/lib/sched.so"
        .DLMOPEN).result =
      .ok { lib_handle := 7, init := 100, deinit := 101, take_decisions := 102 } ∧
    lifetime (sample_linker required_symbols) "/lib/sched.so" .DLMOPEN [] =
      [Call.dlmopen (-1) "/lib/sched.so" 10, Call.dlsym 7 "batsim_edc_init",
       Call.dlsym 7 "batsim_edc_deinit", Call.dlsym 7 "batsim_edc_take_decisions",
       Call.invoke 101, Call.dlclose 7] ∧
    Call.invoke 100 ∉ lifetime (sample_linker required_symbols) "/lib/sched.so" .DLMOPEN [] ∧
    Call.invoke 101 ∈ lifetime (sample_linker required_symbols) "/lib/sched.so" .DLMOPEN [] ∧
    (lifetime (sample_linker required_symbols) "/lib/sched.so" .DLMOPEN
        [OwnerCall.take_decisions]).filter Call.is_invoke =
      [Call.invoke 102, Call.invoke 101] := by
  decide

/-- C13 (amended): a successful load resolves `init` without calling it, and the
constructor and the destructor never call `init` or `take_decisions`. The
entry-point calls of the lifetime of a handle are the calls its owner makes
through it, in the order the owner makes them, followed by the one `deinit`
call of the destructor: `deinit` is called whether or not `init` was. When the
owner calls `init` first and then only `take_decisions`, `init` is called
exactly once, after the load, before every `take_decisions` call and before
`deinit`. -/
theorem lifetime_entry_point_calls (ld : DynamicLinker) (lib_path : String)
    (load_method : EdcLibraryLoadMethod) (uses : List OwnerCall) (lib : ExternalLibrary)
    (hload : (ExternalLibrary.construct ld lib_path load_method).result = .ok lib) :
    lifetime ld lib_path load_method uses =
      (ExternalLibrary.construct ld lib_path load_method).trace ++
        uses.map lib.owner_call ++ [Call.invoke lib.deinit, Call.dlclose lib.lib_handle] ∧
    (∀ c ∈ (ExternalLibrary.construct ld lib_path load_method).trace, c.is_invoke = false) ∧
    (lifetime ld lib_path load_method uses).filter Call.is_invoke =
      uses.map lib.owner_call ++ [Call.invoke lib.deinit] ∧
    (∀ n : Nat,
      (lifetime ld lib_path load_method
          (OwnerCall.init :: List.replicate n OwnerCall.take_decisions)).filter
          Call.is_invoke =
        Call.invoke lib.init ::
          (List.replicate n (Call.invoke lib.take_decisions) ++ [Call.invoke lib.deinit])) := by
  have hlife : ∀ us : List OwnerCall, lifetime ld lib_path load_method us =
      (ExternalLibrary.construct ld lib_path load_method).trace ++
        us.map lib.owner_call ++ [Call.invoke lib.deinit, Call.dlclose lib.lib_handle] := by
    intro us
    simp only [lifetime, hload, ExternalLibrary.destruct]
  have hfilter : ∀ us : List OwnerCall,
      (lifetime ld lib_path load_method us).filter Call.is_invoke =
        us.map lib.owner_call ++ [Call.invoke lib.deinit] := by
    intro us
    rw [hlife us, List.filter_append, List.filter_append, filter_invoke_construct,
      filter_invoke_owner_calls]
    rfl
  refine ⟨hlife uses, construct_no_invoke ld lib_path load_method, hfilter uses, ?_⟩
  intro n
  rw [hfilter]
  simp [ExternalLibrary.owner_call]

/-- C13 (amended) at the sample library, the owner calling `init` and then
`take_decisions` twice: the invocations are `init`, `take_decisions`,
`take_decisions`, `deinit`, in this order. -/
theorem lifetime_entry_point_calls_witness :
    (ExternalLibrary.construct (sample_linker required_symbols) "/lib/sched.so"
        .DLOPEN).result =
      .ok { lib_handle := 7, init := 100, deinit := 101, take_decisions := 102 } ∧
    (lifetime (sample_linker required_symbols) "/lib/sched.so" .DLOPEN
        [OwnerCall.init, OwnerCall.take_decisions, OwnerCall.take_decisions]).filter
        Call.is_invoke =
      [Call.invoke 100, Call.invoke 102, Call.invoke 102, Call.invoke 101] :=
  ⟨by decide,
    (lifetime_entry_point_calls (sample_linker required_symbols) "/lib/sched.so" .DLOPEN
      [OwnerCall.init, OwnerCall.take_decisions, OwnerCall.take_decisions]
      { lib_handle := 7, init := 100, deinit := 101, take_decisions := 102 }
      (by decide)).2.2.1⟩

/-- A symbol lookup is not the open call. -/
theorem dlsym_ne_open_call (lib_handle : Nat) (symbol lib_path : String)
    (load_method : EdcLibraryLoadMethod) :
    Call.dlsym lib_handle symbol ≠ open_call lib_path load_method := by
  cases load_method <;> simp [open_call]

/-- C14: for every library that opens, the symbols are looked up in the order
`batsim_edc_init`, `batsim_edc_deinit`, `batsim_edc_take_decisions`, all in the
opened library. When they all resolve, the three lookups are made. When one does
not, the `SymbolMissing` error names the first in that order that does not
resolve, the lookups made are those of the symbols before it and its own, and no
symbol after it is looked up. -/
theorem symbols_resolved_in_order (ld : DynamicLinker) (lib_path : String)
    (load_method : EdcLibraryLoadMethod)
    (hopen : open_library ld lib_path load_method ≠ 0) :
    required_symbols =
      ["batsim_edc_init", "batsim_edc_deinit", "batsim_edc_take_decisions"] ∧
    ((∀ s ∈ required_symbols, ld.dlsym (open_library ld lib_path load_method) s ≠ 0) →
      (ExternalLibrary.construct ld lib_path load_method).trace =
        open_call lib_path load_method ::
          required_symbols.map (Call.dlsym (open_library ld lib_path load_method))) ∧
    ((∃ s ∈ required_symbols, ld.dlsym (open_library ld lib_path load_method) s = 0) →
      ∃ (found : List String) (missing : String) (skipped : List String),
        required_symbols = found ++ missing :: skipped ∧
        (∀ s ∈ found, ld.dlsym (open_library ld lib_path load_method) s ≠ 0) ∧
        ld.dlsym (open_library ld lib_path load_method) missing = 0 ∧
        (ExternalLibrary.construct ld lib_path load_method).result =
          .error (.SymbolMissing missing) ∧
        (ExternalLibrary.construct ld lib_path load_method).trace =
          open_call lib_path load_method ::
            (found ++ [missing]).map (Call.dlsym (open_library ld lib_path load_method)) ∧
        (∀ s ∈ skipped,
          Call.dlsym (open_library ld lib_path load_method) s ∉
            (ExternalLibrary.construct ld lib_path load_method).trace)) := by
  have hres := construct_result ld lib_path load_method
  have htr := construct_trace ld lib_path load_method
  simp only [hopen, if_false] at hres htr
  refine ⟨rfl, ?_, ?_⟩
  · intro hall
    have h1 := hall "batsim_edc_init" (by simp [required_symbols])
    have h2 := hall "batsim_edc_deinit" (by simp [required_symbols])
    simp only [h1, h2, if_false] at htr
    rw [htr]
    rfl
  · intro hmiss
    by_cases h1 : ld.dlsym (open_library ld lib_path load_method) "batsim_edc_init" = 0
    · simp only [h1, if_true] at hres htr
      refine ⟨[], "batsim_edc_init", ["batsim_edc_deinit", "batsim_edc_take_decisions"],
        rfl, (fun s hs => by cases hs), h1, hres, (by rw [htr]; rfl), ?_⟩
      intro s hs
      rw [htr]
      simp only [List.mem_cons, List.mem_singleton, List.not_mem_nil, or_false] at hs
      have hne := dlsym_ne_open_call (open_library ld lib_path load_method) s lib_path
        load_method
      rcases hs with rfl | rfl <;> simp [hne]
    · by_cases h2 : ld.dlsym (open_library ld lib_path load_method) "batsim_edc_deinit" = 0
      · simp only [h1, h2, if_true, if_false] at hres htr
        refine ⟨["batsim_edc_init"], "batsim_edc_deinit", ["batsim_edc_take_decisions"],
          rfl, ?_, h2, hres, (by rw [htr]; rfl), ?_⟩
        · intro s hs
          simp only [List.mem_singleton] at hs
          subst hs
          exact h1
        · intro s hs
          rw [htr]
          simp only [List.mem_singleton] at hs
          subst hs
          have hne := dlsym_ne_open_call (open_library ld lib_path load_method)
            "batsim_edc_take_decisions" lib_path load_method
          simp [hne]
      · have h3 :
            ld.dlsym (open_library ld lib_path load_method) "batsim_edc_take_decisions" = 0 := by
          obtain ⟨s, hs, hz⟩ := hmiss
          simp only [required_symbols, List.mem_cons, List.mem_singleton, List.not_mem_nil,
            or_false] at hs
          rcases hs with rfl | rfl | rfl
          · exact absurd hz h1
          · exact absurd hz h2
          · exact hz
        simp only [h1, h2, h3, if_true, if_false] at hres htr
        refine ⟨["batsim_edc_init", "batsim_edc_deinit"], "batsim_edc_take_decisions", [],
          rfl, ?_, h3, hres, (by rw [htr]; rfl), (fun s hs => by cases hs)⟩
        intro s hs
        simp only [List.mem_cons, List.mem_singleton, List.not_mem_nil, or_false] at hs
        rcases hs with rfl | rfl
        · exact h1
        · exact h2

/-- C14 at a library that opens and exports only `batsim_edc_init`: both
`batsim_edc_deinit` and `batsim_edc_take_decisions` are missing, the error names
`batsim_edc_deinit`, and `batsim_edc_take_decisions` is not looked up. -/
theorem symbols_resolved_in_order_witness :
    open_library (sample_linker ["batsim_edc_init"]) "/lib/sched.so" .DLMOPEN ≠ 0 ∧
    (ExternalLibrary.construct (sample_linker ["batsim_edc_init"]) "/lib/sched.so"
        .DLMOPEN).result = .error (.SymbolMissing "batsim_edc_deinit") ∧
    (ExternalLibrary.construct (sample_linker ["batsim_edc_init"]) "/lib/sched.so"
        .DLMOPEN).trace =
      [Call.dlmopen (-1) "/lib/sched.so" 10, Call.dlsym 7 "batsim_edc_init",
       Call.dlsym 7 "batsim_edc_deinit"] ∧
    ∃ (found : List String) (missing : String) (skipped : List String),
      required_symbols = found ++ missing :: skipped ∧
      (∀ s ∈ found,
        (sample_linker ["batsim_edc_init"]).dlsym
          (open_library (sample_linker ["batsim_edc_init"]) "/lib/sched.so" .DLMOPEN) s ≠ 0) ∧
      (sample_linker ["batsim_edc_init"]).dlsym
        (open_library (sample_linker ["batsim_edc_init"]) "/lib/sched.so" .DLMOPEN)
        missing = 0 ∧
      (ExternalLibrary.construct (sample_linker ["batsim_edc_init"]) "/lib/sched.so"
          .DLMOPEN).result = .error (.SymbolMissing missing) ∧
      (ExternalLibrary.construct (sample_linker ["batsim_edc_init"]) "/lib/sched.so"
          .DLMOPEN).trace =
        open_call "/lib/sched.so" .DLMOPEN ::
          (found ++ [missing]).map
            (Call.dlsym
              (open_library (sample_linker ["batsim_edc_init"]) "/lib/sched.so" .DLMOPEN)) ∧
      (∀ s ∈ skipped,
        Call.dlsym
            (open_library (sample_linker ["batsim_edc_init"]) "/lib/sched.so" .DLMOPEN) s ∉
          (ExternalLibrary.construct (sample_linker ["batsim_edc_init"]) "/lib/sched.so"
            .DLMOPEN).trace) :=
  ⟨by decide, by decide, by decide,
    (symbols_resolved_in_order (sample_linker ["batsim_edc_init"]) "/lib/sched.so" .DLMOPEN
      (by decide)).2.2 ⟨"batsim_edc_take_decisions", by decide, by decide⟩⟩

/-! ## Properties of the writer -/

namespace JsonProtocolWriter

/-- The writer an accepted append of `call` leaves. -/
theorem append_event_eq (w : JsonProtocolWriter) (date : Date) (type : String)
    (data : EventData) :
    w.append_event date type data =
      if w._last_date ≤ date then
        .ok { _is_empty := false, _last_date := date
              _events := w._events ++ [{ timestamp := date, type := type, data := data }] }
      else .error .NonMonotonicTimestamp := rfl

/-- An accepted append has a date not below `_last_date` and pushes exactly the
event of the call at the end of the buffer. -/
theorem append_ok (w w2 : JsonProtocolWriter) (call : AppendCall)
    (h : w.append call = .ok w2) :
    w._last_date ≤ call.date ∧
    w2 = { _is_empty := false, _last_date := call.date
           _events := w._events ++
             [{ timestamp := call.date, type := call.kind, data := call.payload }] } := by
  cases call <;>
    simp only [append, append_nop, append_submit_job, append_execute_job, append_reject_job,
      append_kill_job, append_set_resource_state, append_call_me_later,
      append_submitter_may_submit_jobs, append_scheduler_finished_submitting_jobs,
      append_query_request, append_simulation_begins, append_simulation_ends,
      append_job_submitted, append_job_completed, append_job_killed,
      append_resource_state_changed, append_query_reply_energy, append_event_eq,
      AppendCall.date, AppendCall.kind, AppendCall.payload] at h ⊢ <;>
    split_ifs at h <;>
    exact ⟨by assumption, (Except.ok.inj h).symm⟩

/-- An append with a date below `_last_date` is fatal. -/
theorem append_stale (w : JsonProtocolWriter) (call : AppendCall)
    (h : call.date < w._last_date) : w.append call = .error .NonMonotonicTimestamp := by
  have h2 : ¬ w._last_date ≤ call.date := not_le.mpr h
  cases call <;>
    simp only [AppendCall.date] at h2 <;>
    simp [append, append_nop, append_submit_job, append_execute_job, append_reject_job,
      append_kill_job, append_set_resource_state, append_call_me_later,
      append_submitter_may_submit_jobs, append_scheduler_finished_submitting_jobs,
      append_query_request, append_simulation_begins, append_simulation_ends,
      append_job_submitted, append_job_completed, append_job_killed,
      append_resource_state_changed, append_query_reply_energy, append_event_eq, h2]

/-- The state `generate_current_message` returns is the state it was called on. -/
theorem generate_ok (w w2 : JsonProtocolWriter) (date : Date) (m : Message)
    (h : w.generate_current_message date = .ok (m, w2)) :
    w._last_date ≤ date ∧ w2 = w ∧ m = { now := date, events := w._events } := by
  unfold generate_current_message at h
  split_ifs at h with hd
  · have h2 := Except.ok.inj h
    simp only [Prod.mk.injEq] at h2
    exact ⟨hd, h2.2.symm, h2.1.symm⟩

/-- The invariant of the writer states: the dates of the buffered events are
non-decreasing in buffer order, none exceeds `_last_date`, the last one is
`_last_date`, and `_is_empty` tells whether the buffer is empty. -/
theorem invariant_of_run (ops : List WriterOp) :
    ∀ w w2 : JsonProtocolWriter,
      ((w._events.map Event.timestamp).Pairwise (· ≤ ·) ∧
        (∀ e ∈ w._events, e.timestamp ≤ w._last_date) ∧
        (∀ e, w._events.getLast? = some e → e.timestamp = w._last_date) ∧
        (w._is_empty = true ↔ w._events = [])) →
      w.run ops = .ok w2 →
      ((w2._events.map Event.timestamp).Pairwise (· ≤ ·) ∧
        (∀ e ∈ w2._events, e.timestamp ≤ w2._last_date) ∧
        (∀ e, w2._events.getLast? = some e → e.timestamp = w2._last_date) ∧
        (w2._is_empty = true ↔ w2._events = [])) := by
  induction ops with
  | nil =>
    intro w w2 hw h
    simp only [run] at h
    cases h
    exact hw
  | cons op ops ih =>
    intro w w2 hw h
    simp only [run] at h
    cases hs : w.step op with
    | error e => rw [hs] at h; cases h
    | ok w1 =>
      rw [hs] at h
      refine ih w1 w2 ?_ h
      cases op with
      | append call =>
        obtain ⟨hd, rfl⟩ := append_ok w w1 call hs
        obtain ⟨hsorted, hle, _, _⟩ := hw
        refine ⟨?_, ?_, ?_, ?_⟩
        · simp only [List.map_append, List.map_cons, List.map_nil]
          rw [List.pairwise_append]
          refine ⟨hsorted, List.pairwise_singleton _ _, ?_⟩
          intro a ha b hb
          simp only [List.mem_singleton] at hb
          subst hb
          obtain ⟨e, he, rfl⟩ := List.mem_map.mp ha
          exact le_trans (hle e he) hd
        · intro e he
          rcases List.mem_append.mp he with h1 | h1
          · exact le_trans (hle e h1) hd
          · simp only [List.mem_singleton] at h1
            subst h1
            exact le_refl _
        · intro e he
          simp only [List.getLast?_append, List.getLast?_singleton, Option.or,
            Option.some.injEq] at he
          subst he
          rfl
        · simp
      | generate_current_message date =>
        simp only [step] at hs
        cases hg : w.generate_current_message date with
        | error e => rw [hg] at hs; cases hs
        | ok p =>
          obtain ⟨m, w3⟩ := p
          rw [hg] at hs
          cases hs
          obtain ⟨_, rfl, _⟩ := generate_ok w w1 date m hg
          exact hw
      | clear =>
        simp only [step] at hs
        cases hs
        simp [clear]

/-- Every reachable writer state satisfies the invariant. -/
theorem invariant_of_reachable (w : JsonProtocolWriter) (h : w.Reachable) :
    (w._events.map Event.timestamp).Pairwise (· ≤ ·) ∧
    (∀ e ∈ w._events, e.timestamp ≤ w._last_date) ∧
    (∀ e, w._events.getLast? = some e → e.timestamp = w._last_date) ∧
    (w._is_empty = true ↔ w._events = []) := by
  obtain ⟨ops, hops⟩ := h
  exact invariant_of_run ops create w (by simp [create]) hops

/-- A run of calls splits at any point. -/
theorem run_append (ops1 ops2 : List WriterOp) :
    ∀ w : JsonProtocolWriter,
      w.run (ops1 ++ ops2) =
        match w.run ops1 with
        | .ok w1 => w1.run ops2
        | .error e => .error e := by
  induction ops1 with
  | nil => intro w; simp [run]
  | cons op ops ih =>
    intro w
    simp only [List.cons_append, run]
    cases w.step op with
    | error e => rfl
    | ok w1 => exact ih w1

end JsonProtocolWriter

/-- C5: in every reachable writer state, every `append_*` whose date is strictly
less than the timestamp of the previously appended event of the buffer is fatal
and yields no writer (the event is not added); and the timestamps of the
buffered events are non-decreasing in append order. -/
theorem append_rejects_decreasing_timestamp (w : JsonProtocolWriter) (hw : w.Reachable) :
    (∀ (call : AppendCall) (previous : Event),
      w._events.getLast? = some previous → call.date < previous.timestamp →
      w.append call = .error .NonMonotonicTimestamp ∧ ∀ w2, w.append call ≠ .ok w2) ∧
    (w._events.map Event.timestamp).Pairwise (· ≤ ·) := by
  have hinv := JsonProtocolWriter.invariant_of_reachable w hw
  refine ⟨?_, hinv.1⟩
  intro call previous hprev hlt
  have hstale : call.date < w._last_date := by
    rw [← hinv.2.2.1 previous hprev]
    exact hlt
  have herr := JsonProtocolWriter.append_stale w call hstale
  refine ⟨herr, ?_⟩
  intro w2 h2
  rw [herr] at h2
  cases h2

/-- C5 at the writer reached by `append_nop(2)` then `append_reject_job("job1", 5)`:
`append_kill_job` at date `3` is fatal, and the buffered timestamps `2, 5` are
non-decreasing. -/
theorem append_rejects_decreasing_timestamp_witness :
    sample_writer.Reachable ∧
    sample_writer.append (AppendCall.kill_job ["job1"] 3) = .error .NonMonotonicTimestamp ∧
    (sample_writer._events.map Event.timestamp).Pairwise (· ≤ ·) :=
  ⟨⟨[WriterOp.append (AppendCall.nop 2), WriterOp.append (AppendCall.reject_job "job1" 5)],
      by decide⟩,
    ((append_rejects_decreasing_timestamp sample_writer
      ⟨[WriterOp.append (AppendCall.nop 2), WriterOp.append (AppendCall.reject_job "job1" 5)],
        by decide⟩).1 (AppendCall.kill_job ["job1"] 3)
      { timestamp := 5, type := "REJECT_JOB", data := .reject_job "job1" }
      (by decide) (by decide)).1,
    (append_rejects_decreasing_timestamp sample_writer
      ⟨[WriterOp.append (AppendCall.nop 2), WriterOp.append (AppendCall.reject_job "job1" 5)],
        by decide⟩).2⟩

/-- C6, as stated, fails: `"SUCCESS"` is an accepted status, yet after
`append_nop(5)` on a new writer `append_job_completed("job1", "SUCCESS", 3)` is
rejected, because of its date. -/
theorem append_job_completed_rejects_success_at_stale_date :
    "SUCCESS" ∈ JsonProtocolWriter.accepted_completion_statuses ∧
    (JsonProtocolWriter.create.run [WriterOp.append (AppendCall.nop 5)]).bind
        (fun w => w.append_job_completed "job1" "SUCCESS" 3) =
      .error .NonMonotonicTimestamp := by
  decide

/-- C6 (amended): for every writer state, job id, status string and date that is
not below the date of the previously appended event (`_last_date`),
`append_job_completed` accepts the event if and only if the status is
`"SUCCESS"` or `"TIMEOUT"`; an accepted event is pushed at the end of the
buffer, and any other status is rejected at append time, yielding no writer. -/
theorem append_job_completed_accepts_iff (w : JsonProtocolWriter) (job_id job_status : String)
    (date : Date) (hdate : w._last_date ≤ date) :
    ((∃ w2, w.append_job_completed job_id job_status date = .ok w2) ↔
      (job_status = "SUCCESS" ∨ job_status = "TIMEOUT")) ∧
    ((job_status = "SUCCESS" ∨ job_status = "TIMEOUT") →
      w.append_job_completed job_id job_status date =
        .ok { _is_empty := false, _last_date := date
              _events := w._events ++
                [{ timestamp := date, type := "JOB_COMPLETED"
                   data := .job_completed job_id job_status }] }) ∧
    (¬ (job_status = "SUCCESS" ∨ job_status = "TIMEOUT") →
      w.append_job_completed job_id job_status date =
        .error (.DisallowedCompletionStatus job_status)) := by
  have hmem : job_status ∈ JsonProtocolWriter.accepted_completion_statuses ↔
      (job_status = "SUCCESS" ∨ job_status = "TIMEOUT") := by
    simp [JsonProtocolWriter.accepted_completion_statuses]
  unfold JsonProtocolWriter.append_job_completed JsonProtocolWriter.append_event
  by_cases hs : job_status = "SUCCESS" ∨ job_status = "TIMEOUT"
  · simp [hdate, hmem.mpr hs, hs]
  · simp [hdate, mt hmem.mp hs, hs]

/-- C6 (amended) at a new writer: `append_job_completed("job1", "TIMEOUT", 5)` is
accepted. -/
theorem append_job_completed_accepts_iff_witness :
    (JsonProtocolWriter.create._last_date ≤ 5) ∧
    JsonProtocolWriter.create.append_job_completed "job1" "TIMEOUT" 5 =
      .ok { _is_empty := false, _last_date := 5
            _events := [{ timestamp := 5, type := "JOB_COMPLETED"
                          data := .job_completed "job1" "TIMEOUT" }] } :=
  ⟨by decide,
    (append_job_completed_accepts_iff JsonProtocolWriter.create "job1" "TIMEOUT" 5
      (by decide)).2.1 (Or.inr rfl)⟩

/-- C7: for every writer state and every valid message date (one not below
`_last_date`), `generate_current_message(date)` returns a message stamped with
`date` holding the buffered events in order and leaves the buffer and
`is_empty()` as they were, so that a second call with the same date returns the
same message; a call that turns a non-empty buffer into an empty one is
`clear()`, and `clear()` does empty the buffer. -/
theorem generate_current_message_keeps_events (w : JsonProtocolWriter) (date : Date)
    (hdate : w._last_date ≤ date) :
    (∃ (m : Message) (w2 : JsonProtocolWriter),
      w.generate_current_message date = .ok (m, w2) ∧
      m.now = date ∧ m.events = w._events ∧
      w2._events = w._events ∧ w2.is_empty = w.is_empty ∧
      w2.generate_current_message date = .ok (m, w2)) ∧
    (∀ (op : WriterOp) (w1 : JsonProtocolWriter),
      w._events ≠ [] → w.step op = .ok w1 → w1._events = [] → op = WriterOp.clear) ∧
    w.clear._events = [] := by
  refine ⟨⟨{ now := date, events := w._events }, w, ?_, rfl, rfl, rfl, rfl, ?_⟩, ?_, rfl⟩
  · simp [JsonProtocolWriter.generate_current_message, hdate]
  · simp [JsonProtocolWriter.generate_current_message, hdate]
  · intro op w1 hne hstep hempty
    cases op with
    | append call =>
      obtain ⟨_, rfl⟩ := JsonProtocolWriter.append_ok w w1 call hstep
      simp at hempty
    | generate_current_message d =>
      simp only [JsonProtocolWriter.step] at hstep
      cases hg : w.generate_current_message d with
      | error e => rw [hg] at hstep; cases hstep
      | ok p =>
        obtain ⟨m, w3⟩ := p
        rw [hg] at hstep
        cases hstep
        obtain ⟨_, rfl, _⟩ := JsonProtocolWriter.generate_ok w w1 d m hg
        exact absurd hempty hne
    | clear => rfl

/-- C7 at the writer holding `NOP@2` and `KILL_JOB(["job2"])@5`, with the
message date `6`. -/
theorem generate_current_message_keeps_events_witness :
    ((5 : Date) ≤ 6) ∧
    ∃ (m : Message) (w2 : JsonProtocolWriter),
      JsonProtocolWriter.generate_current_message
        { _is_empty := false, _last_date := 5
          _events := [{ timestamp := 2, type := "NOP", data := .empty },
                      { timestamp := 5, type := "KILL_JOB", data := .kill_job ["job2"] }] }
        6 = .ok (m, w2) ∧
      m.now = 6 ∧
      m.events = [{ timestamp := 2, type := "NOP", data := .empty },
                  { timestamp := 5, type := "KILL_JOB", data := .kill_job ["job2"] }] ∧
      w2._events = [{ timestamp := 2, type := "NOP", data := .empty },
                    { timestamp := 5, type := "KILL_JOB", data := .kill_job ["job2"] }] ∧
      w2.is_empty = false ∧
      w2.generate_current_message 6 = .ok (m, w2) :=
  ⟨by decide,
    (generate_current_message_keeps_events
      { _is_empty := false, _last_date := 5
        _events := [{ timestamp := 2, type := "NOP", data := .empty },
                    { timestamp := 5, type := "KILL_JOB", data := .kill_job ["job2"] }] }
      6 (by decide)).1⟩

/-! ## Properties of the reader -/

/-- C9: for every `CALL_ME_LATER` event with timestamp `t` and payload
`future_date = f`, the handler is fatal and schedules nothing when `f ≤ t`, and
schedules a wake-up of the decision process at the simulated time `f` when
`t < f`; the same holds of `parse_and_apply_event` on such an event of a
message whose date is not below `t`. -/
theorem call_me_later_requires_future_date (r : JsonProtocolReader) (event_number : Nat)
    (t f now : Date) :
    (f ≤ t →
      r.handle_call_me_later event_number t (.call_me_later f) =
        .error (.InvalidFutureDate event_number) ∧
      (t ≤ now →
        r.parse_and_apply_event
            { timestamp := t, type := "CALL_ME_LATER", data := .call_me_later f }
            event_number now =
          .error (.InvalidFutureDate event_number))) ∧
    (t < f →
      r.handle_call_me_later event_number t (.call_me_later f) =
        .ok [{ when := t, destination_mailbox := "server", message := .wake_up f }] ∧
      (t ≤ now →
        r.parse_and_apply_event
            { timestamp := t, type := "CALL_ME_LATER", data := .call_me_later f }
            event_number now =
          .ok ({ handler := .handle_call_me_later, event_number := event_number
                 timestamp := t, data_object := .call_me_later f },
               [{ when := t, destination_mailbox := "server", message := .wake_up f }]))) := by
  have hlook : JsonProtocolReader._type_to_handler_map.lookup "CALL_ME_LATER" =
      some Handler.handle_call_me_later := rfl
  constructor
  · intro hle
    have hnot : ¬ t < f := not_lt.mpr hle
    refine ⟨by simp [JsonProtocolReader.handle_call_me_later, hnot], ?_⟩
    intro hnow
    simp [JsonProtocolReader.parse_and_apply_event, hnow, hlook, JsonProtocolReader.invoke,
      JsonProtocolReader.handle_call_me_later, hnot]
  · intro hlt
    refine ⟨by simp [JsonProtocolReader.handle_call_me_later, hlt,
      JsonProtocolReader.dsend_message], ?_⟩
    intro hnow
    simp [JsonProtocolReader.parse_and_apply_event, hnow, hlook, JsonProtocolReader.invoke,
      JsonProtocolReader.handle_call_me_later, hlt, JsonProtocolReader.dsend_message]

/-- C9 at event number `0` with timestamp `3`: `future_date = 3` is rejected and
`future_date = 10` schedules a wake-up at `10`. -/
theorem call_me_later_requires_future_date_witness :
    JsonProtocolReader.handle_call_me_later { context := mock_context } 0 3
        (.call_me_later 3) = .error (.InvalidFutureDate 0) ∧
    JsonProtocolReader.handle_call_me_later { context := mock_context } 0 3
        (.call_me_later 10) =
      .ok [{ when := 3, destination_mailbox := "server", message := .wake_up 10 }] :=
  ⟨((call_me_later_requires_future_date { context := mock_context } 0 3 3 5).1
      (by decide)).1,
    ((call_me_later_requires_future_date { context := mock_context } 0 3 10 5).2
      (by decide)).1⟩

/-- C10: for every `QUERY_REQUEST` event, the handler accepts it if and only if
every requested kind is `"consumed_energy"`, the one member of
`accepted_requests`; a request naming another kind is fatal, the error naming a
requested kind that is not accepted. -/
theorem query_request_accepts_iff (r : JsonProtocolReader) (event_number : Nat)
    (timestamp : Date) (requests : List String) :
    JsonProtocolReader.accepted_requests = ["consumed_energy"] ∧
    ((∃ s, r.handle_query_request event_number timestamp (.query_request requests) = .ok s) ↔
      ∀ k ∈ requests, k = "consumed_energy") ∧
    ((∃ k ∈ requests, k ≠ "consumed_energy") →
      ∃ k ∈ requests, k ≠ "consumed_energy" ∧
        r.handle_query_request event_number timestamp (.query_request requests) =
          .error (.DisallowedQueryRequest event_number k)) := by
  have key : ∀ res, requests.find?
        (fun k => decide (k ∉ JsonProtocolReader.accepted_requests)) = res →
      r.handle_query_request event_number timestamp (.query_request requests) =
        match res with
        | some k => .error (.DisallowedQueryRequest event_number k)
        | none =>
          .ok [JsonProtocolReader.dsend_message timestamp "server" (.query requests)] := by
    intro res h
    subst h
    rfl
  have hnone : requests.find?
        (fun k => decide (k ∉ JsonProtocolReader.accepted_requests)) = none ↔
      ∀ k ∈ requests, k = "consumed_energy" := by
    rw [List.find?_eq_none]
    simp [JsonProtocolReader.accepted_requests]
  have hsome : ∀ k, requests.find?
        (fun k => decide (k ∉ JsonProtocolReader.accepted_requests)) = some k →
      k ∈ requests ∧ k ≠ "consumed_energy" := by
    intro k hf
    refine ⟨List.mem_of_find?_eq_some hf, ?_⟩
    have hk := List.find?_some hf
    simpa [JsonProtocolReader.accepted_requests] using hk
  refine ⟨rfl, ?_, ?_⟩
  · cases hf : requests.find?
        (fun k => decide (k ∉ JsonProtocolReader.accepted_requests)) with
    | none =>
      rw [key _ hf]
      exact ⟨fun _ => hnone.mp hf, fun _ => ⟨_, rfl⟩⟩
    | some k =>
      rw [key _ hf]
      constructor
      · rintro ⟨s, hs⟩
        cases hs
      · intro hall
        have := hnone.mpr hall
        rw [hf] at this
        cases this
  · intro hbad
    cases hf : requests.find?
        (fun k => decide (k ∉ JsonProtocolReader.accepted_requests)) with
    | none =>
      obtain ⟨k, hk, hne⟩ := hbad
      exact absurd (hnone.mp hf k hk) hne
    | some k =>
      exact ⟨k, (hsome k hf).1, (hsome k hf).2, key _ hf⟩

/-- C10 at the requests `["consumed_energy"]`, accepted, and
`["consumed_energy", "free_memory"]`, rejected for `"free_memory"`. -/
theorem query_request_accepts_iff_witness :
    (∃ s, JsonProtocolReader.handle_query_request { context := mock_context } 0 10
        (.query_request ["consumed_energy"]) = .ok s) ∧
    JsonProtocolReader.handle_query_request { context := mock_context } 0 10
        (.query_request ["consumed_energy", "free_memory"]) =
      .error (.DisallowedQueryRequest 0 "free_memory") :=
  ⟨(query_request_accepts_iff { context := mock_context } 0 10 ["consumed_energy"]).2.1.mpr
      (by decide),
    by decide⟩

end Batsim
